import Mathlib

/-!
# GuardianAgent — verification of the orchestration core

Shallow embedding of the GuardianAgent pipeline (Backend/agent/agent.py and
its utility modules) together with proofs about the risk-fusion decision
step, the at-most-once scam-processing guard, the analysis-cadence gate,
transcript ingestion, speaker resolution, the utterance fallback path,
snapshot export, phone-reputation lookup and the scam-database writer.

Python floats are modelled as rationals (`ℚ`); all comparisons appearing in
the source are order comparisons that transfer directly.  Python dicts that
may lack keys are modelled with `Option`.
-/

namespace Guardian

/-- Python's `f"{x:.0f}"` rounds to the nearest integer, ties to even
(banker's rounding).  Modelled on `ℚ` for the nonnegative risk values the
pipeline formats. -/
def pyRound0 (q : ℚ) : ℤ :=
  let f : ℤ := ⌊q⌋
  let frac : ℚ := q - f
  if frac < 1/2 then f
  else if 1/2 < frac then f + 1
  else if f % 2 = 0 then f else f + 1

/-- Rendering of `f"{x:.0f}"` as a string. -/
def fmt0 (q : ℚ) : String := toString (pyRound0 q)

/-- `reputation_check` dict: `{ "risk_score": float, "known_scam": bool, ... }`. -/
structure Reputation where
  risk_score : ℚ
  known_scam : Bool
deriving Repr, DecidableEq

/-- `analysis` dict: latest transcript-analysis result. -/
structure Analysis where
  risk_score : ℚ
  scam_indicators : List String
  reason : String
deriving Repr, DecidableEq

/-- `decision` dict produced by `GuardianAgent.n_decide`. -/
structure Decision where
  action : String
  reason : String
  risk_score : ℚ
deriving Repr, DecidableEq

/-- The reason-string construction of `GuardianAgent.n_decide`
(agent.py lines 236–253), with `risk` the fused maximum. -/
def reason_text (phone_risk transcript_risk risk : ℚ) (known_scam : Bool) : String :=
  if phone_risk > 0 ∧ transcript_risk > 0 then
    if phone_risk ≥ transcript_risk then
      if known_scam then
        "High risk=" ++ fmt0 risk ++ "% (known scam database match). Conversation analysis: "
          ++ fmt0 transcript_risk ++ "%"
      else
        "Combined risk=" ++ fmt0 risk ++ "% (phone: " ++ fmt0 phone_risk
          ++ "%, conversation: " ++ fmt0 transcript_risk ++ "%)"
    else
      "High risk=" ++ fmt0 risk ++ "% from conversation analysis. Phone reputation: "
        ++ fmt0 phone_risk ++ "%"
  else if phone_risk > 0 then
    if known_scam then
      "Known scam number detected (risk: " ++ fmt0 phone_risk ++ "%)"
    else
      "Phone reputation risk: " ++ fmt0 phone_risk ++ "%"
  else if transcript_risk > 0 then
    "Conversation analysis risk: " ++ fmt0 transcript_risk ++ "%"
  else
    "No risk detected"

/-- `GuardianAgent.n_decide` (agent.py lines 214–272): fuse the reputation
signal and the transcript-analysis signal into a decision.
`analysis.get("risk_score", 0.0)` / `rep.get("risk_score", 0.0)` on the
possibly-absent dicts is the `Option ... |>.getD 0` below. -/
def n_decide (analysis : Option Analysis) (rep : Option Reputation) : Decision :=
  let transcript_risk : ℚ := (analysis.map (·.risk_score)).getD 0
  let phone_risk : ℚ := (rep.map (·.risk_score)).getD 0
  let risk : ℚ := max transcript_risk phone_risk
  let action : String :=
    if risk ≥ 80 then "warn"
    else if risk ≥ 40 then "question"
    else "observe"
  let known_scam : Bool := (rep.map (·.known_scam)).getD false
  { action := action
    reason := reason_text phone_risk transcript_risk risk known_scam
    risk_score := risk }

/-- Claim C1: for every pair of reputation risk score `p` and transcript
risk score `t` in `[0,100]`, `n_decide` computes `risk = max p t`, stores it
as `decision.risk_score`, and maps it to `warn` when `risk ≥ 80`,
`question` when `40 ≤ risk < 80` and `observe` when `risk < 40`; the
boundary risks 0, 39.9, 40, 79.9, 80, 100 map to observe, observe,
question, question, warn, warn. -/
theorem decide_thresholds (a : Analysis) (r : Reputation)
    (hp0 : 0 ≤ r.risk_score) (hp1 : r.risk_score ≤ 100)
    (ht0 : 0 ≤ a.risk_score) (ht1 : a.risk_score ≤ 100) :
    (n_decide (some a) (some r)).risk_score = max r.risk_score a.risk_score ∧
    (max r.risk_score a.risk_score ≥ 80 → (n_decide (some a) (some r)).action = "warn") ∧
    (40 ≤ max r.risk_score a.risk_score ∧ max r.risk_score a.risk_score < 80 →
      (n_decide (some a) (some r)).action = "question") ∧
    (max r.risk_score a.risk_score < 40 → (n_decide (some a) (some r)).action = "observe") ∧
    (n_decide (some ⟨0, [], ""⟩) (some ⟨0, false⟩)).action = "observe" ∧
    (n_decide (some ⟨39.9, [], ""⟩) (some ⟨0, false⟩)).action = "observe" ∧
    (n_decide (some ⟨40, [], ""⟩) (some ⟨0, false⟩)).action = "question" ∧
    (n_decide (some ⟨79.9, [], ""⟩) (some ⟨0, false⟩)).action = "question" ∧
    (n_decide (some ⟨80, [], ""⟩) (some ⟨0, false⟩)).action = "warn" ∧
    (n_decide (some ⟨100, [], ""⟩) (some ⟨0, false⟩)).action = "warn" := by
  refine ⟨?_, ?_, ?_, ?_, ?_, ?_, ?_, ?_, ?_, ?_⟩
  · simp [n_decide, max_comm]
  · intro h
    rw [max_comm] at h
    simp only [n_decide, Option.map_some', Option.getD_some]
    split_ifs with g1 g2 <;>
      first | rfl | (exfalso; simp only [ge_iff_le, not_le] at *; linarith)
  · intro ⟨h1, h2⟩
    rw [max_comm] at h1 h2
    simp only [n_decide, Option.map_some', Option.getD_some]
    split_ifs with g1 g2 <;>
      first | rfl | (exfalso; simp only [ge_iff_le, not_le] at *; linarith)
  · intro h
    rw [max_comm] at h
    simp only [n_decide, Option.map_some', Option.getD_some]
    split_ifs with g1 g2 <;>
      first | rfl | (exfalso; simp only [ge_iff_le, not_le] at *; linarith)
  · norm_num [n_decide]
  · norm_num [n_decide]
  · norm_num [n_decide]
  · norm_num [n_decide]
  · norm_num [n_decide]
  · norm_num [n_decide]

/-- Witness for `decide_thresholds` at reputation score 90 (known scam) and
transcript score 50: the fused risk is 90 and the action is `warn`. -/
theorem decide_thresholds_witness :
    (n_decide (some ⟨50, [], ""⟩) (some ⟨90, true⟩)).action = "warn" := by
  have h := decide_thresholds ⟨50, [], ""⟩ ⟨90, true⟩
    (by norm_num) (by norm_num) (by norm_num) (by norm_num)
  exact h.2.1 (by norm_num)

/-- `s` starts with `lead`. -/
def leadsWith (s lead : String) : Prop := ∃ rest, s = lead ++ rest

/-- `s` contains `mid` as a contiguous substring. -/
def containsStr (s mid : String) : Prop := ∃ a b, s = a ++ (mid ++ b)

/-- `s` ends with `tail`. -/
def endsWithStr (s tail : String) : Prop := ∃ a, s = a ++ tail

/-- Evaluation of `pyRound0` on an integer value. -/
theorem pyRound0_intCast (z : ℤ) : pyRound0 (z : ℚ) = z := by
  simp [pyRound0]

/-- Evaluation of `fmt0` on an integer value. -/
theorem fmt0_intCast (z : ℤ) : fmt0 (z : ℚ) = toString z := by
  simp [fmt0, pyRound0_intCast]

/-- Claim C4: the decision reason is a deterministic function of the two
risk scores and the known-bad flag, ties going to reputation: with both
scores positive and reputation ≥ transcript the reason leads with the
reputation signal (mentioning the known-scam match when flagged) and
appends the transcript score; with transcript > reputation it leads with
the transcript score and appends the reputation score; with only one
positive score only that signal is reported; with neither positive the
reason is exactly "No risk detected". -/
theorem decision_reason (a : Analysis) (r : Reputation) :
    (n_decide (some a) (some r)).reason
      = reason_text r.risk_score a.risk_score (max a.risk_score r.risk_score) r.known_scam ∧
    (r.risk_score > 0 → a.risk_score > 0 → r.risk_score ≥ a.risk_score → r.known_scam = true →
      leadsWith (n_decide (some a) (some r)).reason "High risk=" ∧
      containsStr (n_decide (some a) (some r)).reason "known scam database match" ∧
      endsWithStr (n_decide (some a) (some r)).reason
        ("Conversation analysis: " ++ fmt0 a.risk_score ++ "%")) ∧
    (r.risk_score > 0 → a.risk_score > 0 → r.risk_score ≥ a.risk_score → r.known_scam = false →
      leadsWith (n_decide (some a) (some r)).reason "Combined risk=" ∧
      endsWithStr (n_decide (some a) (some r)).reason
        ("(phone: " ++ fmt0 r.risk_score ++ "%, conversation: " ++ fmt0 a.risk_score ++ "%)")) ∧
    (r.risk_score > 0 → a.risk_score > 0 → a.risk_score > r.risk_score →
      (n_decide (some a) (some r)).reason
        = "High risk=" ++ fmt0 (max a.risk_score r.risk_score)
            ++ "% from conversation analysis. Phone reputation: " ++ fmt0 r.risk_score ++ "%") ∧
    (r.risk_score > 0 → ¬ a.risk_score > 0 →
      (r.known_scam = true →
        (n_decide (some a) (some r)).reason
          = "Known scam number detected (risk: " ++ fmt0 r.risk_score ++ "%)") ∧
      (r.known_scam = false →
        (n_decide (some a) (some r)).reason
          = "Phone reputation risk: " ++ fmt0 r.risk_score ++ "%")) ∧
    (¬ r.risk_score > 0 → a.risk_score > 0 →
      (n_decide (some a) (some r)).reason
        = "Conversation analysis risk: " ++ fmt0 a.risk_score ++ "%") ∧
    (¬ r.risk_score > 0 → ¬ a.risk_score > 0 →
      (n_decide (some a) (some r)).reason = "No risk detected") := by
  have base : (n_decide (some a) (some r)).reason
      = reason_text r.risk_score a.risk_score (max a.risk_score r.risk_score) r.known_scam := by
    simp [n_decide]
  refine ⟨base, ?_, ?_, ?_, ?_, ?_, ?_⟩
  · intro hp ht hpt hkb
    rw [base, reason_text, if_pos ⟨hp, ht⟩, if_pos hpt, hkb, if_pos rfl]
    refine ⟨⟨fmt0 (max a.risk_score r.risk_score)
      ++ "% (known scam database match). Conversation analysis: "
      ++ fmt0 a.risk_score ++ "%", by simp [String.append_assoc]⟩, ?_, ?_⟩
    · refine ⟨"High risk=" ++ fmt0 (max a.risk_score r.risk_score) ++ "% (",
        "). Conversation analysis: " ++ fmt0 a.risk_score ++ "%", ?_⟩
      have hsplit : ("% (known scam database match). Conversation analysis: " : String)
          = "% (" ++ "known scam database match" ++ "). Conversation analysis: " := by decide
      rw [hsplit]
      simp only [String.append_assoc]
    · refine ⟨"High risk=" ++ fmt0 (max a.risk_score r.risk_score)
        ++ "% (known scam database match). ", ?_⟩
      have hsplit : ("% (known scam database match). Conversation analysis: " : String)
          = "% (known scam database match). " ++ "Conversation analysis: " := by decide
      rw [hsplit]
      simp only [String.append_assoc]
  · intro hp ht hpt hkb
    rw [base, reason_text, if_pos ⟨hp, ht⟩, if_pos hpt, hkb]
    simp only [Bool.false_eq_true, if_false]
    refine ⟨⟨fmt0 (max a.risk_score r.risk_score) ++ "% (phone: " ++ fmt0 r.risk_score
      ++ "%, conversation: " ++ fmt0 a.risk_score ++ "%)",
      by simp [String.append_assoc]⟩, ?_⟩
    refine ⟨"Combined risk=" ++ fmt0 (max a.risk_score r.risk_score) ++ "% ", ?_⟩
    have hsplit : ("% (phone: " : String) = "% " ++ "(phone: " := by decide
    rw [hsplit]
    simp only [String.append_assoc]
  · intro hp ht hpt
    rw [base, reason_text, if_pos ⟨hp, ht⟩, if_neg (by simp only [ge_iff_le, not_le]; exact hpt)]
  · intro hp ht
    refine ⟨?_, ?_⟩ <;> intro hkb <;>
      rw [base, reason_text, if_neg (fun h => ht h.2), if_pos hp, hkb] <;> simp
  · intro hp ht
    rw [base, reason_text, if_neg (fun h => hp h.1), if_neg hp, if_pos ht]
  · intro hp ht
    rw [base, reason_text, if_neg (fun h => hp h.1), if_neg hp, if_neg ht]

/-- Witness for `decision_reason` at the spec's tie-break test points:
reputation 90 (known scam) against transcript 90 cites the reputation
match; transcript 91 against reputation 90 cites the conversation
analysis; two zero scores give exactly "No risk detected". -/
theorem decision_reason_witness :
    containsStr (n_decide (some ⟨90, [], ""⟩) (some ⟨90, true⟩)).reason
        "known scam database match" ∧
    (n_decide (some ⟨91, [], ""⟩) (some ⟨90, false⟩)).reason
      = "High risk=91% from conversation analysis. Phone reputation: 90%" ∧
    (n_decide (some ⟨0, [], ""⟩) (some ⟨0, false⟩)).reason = "No risk detected" := by
  refine ⟨((decision_reason ⟨90, [], ""⟩ ⟨90, true⟩).2.1
      (by norm_num) (by norm_num) (by norm_num) rfl).2.1, ?_, ?_⟩
  · have h := (decision_reason ⟨91, [], ""⟩ ⟨90, false⟩).2.2.2.1
      (by norm_num) (by norm_num) (by norm_num)
    rw [h]
    have h91 : (max ((91 : ℚ)) ((90 : ℚ))) = ((91 : ℤ) : ℚ) := by norm_num
    have h90 : ((90 : ℚ)) = ((90 : ℤ) : ℚ) := by norm_num
    rw [h91, fmt0_intCast]
    rw [show (((⟨90, false⟩ : Reputation)).risk_score) = ((90 : ℤ) : ℚ) from by norm_num,
      fmt0_intCast]
    decide
  · exact (decision_reason ⟨0, [], ""⟩ ⟨0, false⟩).2.2.2.2.2.2 (by norm_num) (by norm_num)

/-- A string led by a character other than `'N'` is not "No risk detected". -/
theorem append_ne_of_head (a b : String) (c : Char) (ha : a.data.head? = some c)
    (hc : c ≠ 'N') : a ++ b ≠ "No risk detected" := by
  intro h
  have hd : a.data ++ b.data = "No risk detected".data := by
    rw [← String.data_append, h]
  cases hda : a.data with
  | nil => rw [hda] at ha; simp at ha
  | cons x xs =>
    rw [hda] at ha hd
    simp only [List.head?_cons, Option.some.injEq] at ha
    rw [List.cons_append] at hd
    have hx : x = 'N' := by
      have := congrArg List.head? hd
      simpa using this
    exact hc (ha ▸ hx)

/-- Strings starting with a lead whose first character is not `'N'` differ
from "No risk detected". -/
theorem ne_noRisk_of_leadsWith (s lead : String) (c : Char) (hl : leadsWith s lead)
    (hc : lead.data.head? = some c) (hcn : c ≠ 'N') : s ≠ "No risk detected" := by
  obtain ⟨rest, rfl⟩ := hl
  exact append_ne_of_head _ _ c hc hcn

/-- `reason_text` never yields "No risk detected" once the phone risk is
positive. -/
theorem reason_text_ne_noRisk (p t risk : ℚ) (kb : Bool) (hp : 0 < p) :
    reason_text p t risk kb ≠ "No risk detected" := by
  unfold reason_text
  split_ifs with h1 h2 h3 h4
  · exact ne_noRisk_of_leadsWith _ "High risk=" 'H'
      ⟨fmt0 risk ++ ("% (known scam database match). Conversation analysis: "
        ++ (fmt0 t ++ "%")), by simp only [String.append_assoc]⟩ rfl (by decide)
  · exact ne_noRisk_of_leadsWith _ "Combined risk=" 'C'
      ⟨fmt0 risk ++ ("% (phone: " ++ (fmt0 p ++ ("%, conversation: "
        ++ (fmt0 t ++ "%)")))), by simp only [String.append_assoc]⟩ rfl (by decide)
  · exact ne_noRisk_of_leadsWith _ "High risk=" 'H'
      ⟨fmt0 risk ++ ("% from conversation analysis. Phone reputation: "
        ++ (fmt0 p ++ "%")), by simp only [String.append_assoc]⟩ rfl (by decide)
  · exact ne_noRisk_of_leadsWith _ "Known scam number detected (risk: " 'K'
      ⟨fmt0 p ++ "%)", by simp only [String.append_assoc]⟩ rfl (by decide)
  · exact ne_noRisk_of_leadsWith _ "Phone reputation risk: " 'P'
      ⟨fmt0 p ++ "%", by simp only [String.append_assoc]⟩ rfl (by decide)

/-- An entry of `scam_numbers.json`: `{"number": ..., "notes": ...}`; the
`notes` key is read with `.get`, so it is optional. -/
structure ScamEntry where
  number : String
  notes : Option String
deriving Repr, DecidableEq

/-- `_normalize_number` (check_phone_reputation.py lines 36–44 and
report_scam.py lines 10–14): keep only the digit characters. -/
def normalize_number (s : String) : String := ⟨s.data.filter Char.isDigit⟩

/-- Python's `s[-n:]` slice on a string of length ≥ n. -/
def lastN (s : String) (n : Nat) : String := ⟨s.data.drop (s.data.length - n)⟩

/-- Result dict of `check_reputation`. -/
structure RepResult where
  phone_number : String
  risk_score : ℚ
  known_scam : Bool
  source : String
  scam_type : Option String
  database_match : Bool
  match_type : Option String
deriving Repr, DecidableEq

/-- Key test for the exact-match branch: the scam-db dict is keyed by
normalized numbers, so membership compares normalized forms. -/
def exactKey (normalized : String) (e : ScamEntry) : Bool :=
  normalize_number e.number == normalized

/-- The partial-match test of check_phone_reputation.py line 79:
`db_number.endswith(last_10) or last_10.endswith(db_number[-10:] if
len(db_number) >= 10 else db_number)`. -/
def partialKey (last_10 : String) (e : ScamEntry) : Bool :=
  let db_number := normalize_number e.number
  last_10.data.isSuffixOf db_number.data ||
    (if db_number.length ≥ 10 then lastN db_number 10 else db_number).data.isSuffixOf
      last_10.data

/-- `check_reputation` (check_phone_reputation.py lines 47–97) against a
database `db` (the parsed `scam_numbers.json`).  The module's dict keyed by
normalized number is modelled by the entry list itself: dict lookup takes
the last entry with a given normalized key (hence `db.reverse.find?`), and
duplicate-key collapsing in the iteration of line 78 could affect only the
`notes` string copied into `scam_type`, not the scored fields. -/
def check_reputation (db : List ScamEntry) (phone_number : String) : RepResult :=
  let normalized := normalize_number phone_number
  match db.reverse.find? (exactKey normalized) with
  | some entry =>
      { phone_number := phone_number
        risk_score := 95
        known_scam := true
        source := "local_scam_db"
        scam_type := some (entry.notes.getD "Known scam number")
        database_match := true
        match_type := none }
  | none =>
      if normalized.length ≥ 10 then
        match db.find? (partialKey (lastN normalized 10)) with
        | some entry =>
            { phone_number := phone_number
              risk_score := 90
              known_scam := true
              source := "local_scam_db"
              scam_type := some (entry.notes.getD "Potential scam number")
              database_match := true
              match_type := some "partial" }
        | none =>
            { phone_number := phone_number
              risk_score := 10
              known_scam := false
              source := "local_scam_db"
              scam_type := none
              database_match := false
              match_type := none }
      else
        { phone_number := phone_number
          risk_score := 10
          known_scam := false
          source := "local_scam_db"
          scam_type := none
          database_match := false
          match_type := none }

/-- Claim C9: `check_reputation` is total with risk-score range exactly
{10, 90, 95}: 95 with `known_scam` on an exact normalized-digits match, 90
with `known_scam` on the partial last-10-digit match, and the baseline 10
without `known_scam` otherwise — never 0; consequently once a reputation
result is stored the fused risk of `n_decide` is at least 10 and the
"No risk detected" reason is unreachable. -/
theorem check_reputation_total (db : List ScamEntry) (x : String) (a : Analysis) :
    ((check_reputation db x).risk_score = 10 ∨ (check_reputation db x).risk_score = 90 ∨
      (check_reputation db x).risk_score = 95) ∧
    (check_reputation db x).risk_score ≠ 0 ∧
    ((∃ e ∈ db, exactKey (normalize_number x) e) →
      (check_reputation db x).risk_score = 95 ∧ (check_reputation db x).known_scam = true) ∧
    ((¬ ∃ e ∈ db, exactKey (normalize_number x) e) → (normalize_number x).length ≥ 10 →
      (∃ e ∈ db, partialKey (lastN (normalize_number x) 10) e) →
      (check_reputation db x).risk_score = 90 ∧ (check_reputation db x).known_scam = true) ∧
    ((¬ ∃ e ∈ db, exactKey (normalize_number x) e) →
      ¬ ((normalize_number x).length ≥ 10 ∧
          ∃ e ∈ db, partialKey (lastN (normalize_number x) 10) e) →
      (check_reputation db x).risk_score = 10 ∧ (check_reputation db x).known_scam = false) ∧
    10 ≤ (n_decide (some a) (some ⟨(check_reputation db x).risk_score,
      (check_reputation db x).known_scam⟩)).risk_score ∧
    (n_decide (some a) (some ⟨(check_reputation db x).risk_score,
      (check_reputation db x).known_scam⟩)).reason ≠ "No risk detected" := by
  have hex : (∃ e ∈ db, exactKey (normalize_number x) e = true) ↔
      (db.reverse.find? (exactKey (normalize_number x))).isSome := by
    rw [List.find?_isSome]
    constructor
    · rintro ⟨e, he, hk⟩; exact ⟨e, List.mem_reverse.mpr he, hk⟩
    · rintro ⟨e, he, hk⟩; exact ⟨e, List.mem_reverse.mp he, hk⟩
  have hrange : ((check_reputation db x).risk_score = 10 ∧
        (check_reputation db x).known_scam = false) ∨
      ((check_reputation db x).risk_score = 90 ∧ (check_reputation db x).known_scam = true) ∨
      ((check_reputation db x).risk_score = 95 ∧ (check_reputation db x).known_scam = true) := by
    rcases hfind : db.reverse.find? (exactKey (normalize_number x)) with _ | e
    · by_cases hlen : (normalize_number x).length ≥ 10
      · rcases hpfind : db.find? (partialKey (lastN (normalize_number x) 10)) with _ | e
        · exact Or.inl (by simp [check_reputation, hfind, hlen, hpfind])
        · exact Or.inr (Or.inl (by simp [check_reputation, hfind, hlen, hpfind]))
      · exact Or.inl (by simp [check_reputation, hfind, hlen])
    · exact Or.inr (Or.inr (by simp [check_reputation, hfind]))
  refine ⟨?_, ?_, ?_, ?_, ?_, ?_, ?_⟩
  · rcases hrange with ⟨h, _⟩ | ⟨h, _⟩ | ⟨h, _⟩ <;> simp [h]
  · rcases hrange with ⟨h, _⟩ | ⟨h, _⟩ | ⟨h, _⟩ <;> rw [h] <;> norm_num
  · intro hmem
    have := hex.mp hmem
    rcases hfind : db.reverse.find? (exactKey (normalize_number x)) with _ | e
    · rw [hfind] at this; simp at this
    · simp [check_reputation, hfind]
  · intro hnmem hlen hpmem
    rcases hfind : db.reverse.find? (exactKey (normalize_number x)) with _ | e
    · rcases hpfind : db.find? (partialKey (lastN (normalize_number x) 10)) with _ | e
      · rw [List.find?_eq_none] at hpfind
        obtain ⟨e, he, hk⟩ := hpmem
        exact absurd hk (by simpa using hpfind e he)
      · simp [check_reputation, hfind, hlen, hpfind]
    · exact absurd (hex.mpr (by rw [hfind]; rfl)) hnmem
  · intro hnmem hnpar
    rcases hfind : db.reverse.find? (exactKey (normalize_number x)) with _ | e
    · by_cases hlen : (normalize_number x).length ≥ 10
      · rcases hpfind : db.find? (partialKey (lastN (normalize_number x) 10)) with _ | e
        · simp [check_reputation, hfind, hlen, hpfind]
        · exact absurd ⟨hlen, List.find?_isSome.mp (by rw [hpfind]; rfl)⟩ hnpar
      · simp [check_reputation, hfind, hlen]
    · exact absurd (hex.mpr (by rw [hfind]; rfl)) hnmem
  · rcases hrange with ⟨h, _⟩ | ⟨h, _⟩ | ⟨h, _⟩ <;>
      simp only [n_decide, Option.map_some', Option.getD_some, h] <;>
      exact le_trans (by norm_num) (le_max_right _ _)
  · rcases hrange with ⟨h, hk⟩ | ⟨h, hk⟩ | ⟨h, hk⟩ <;>
      simp only [n_decide, Option.map_some', Option.getD_some, h, hk] <;>
      exact reason_text_ne_noRisk _ _ _ _ (by norm_num)

/-- Witness for `check_reputation_total`: a one-entry database hit exactly
by a differently formatted number gives score 95 and a known-scam flag, and
a short unknown number gives the baseline 10. -/
theorem check_reputation_total_witness :
    (check_reputation [⟨"+1 (555) 123-4567", some "Known scammer"⟩] "15551234567").risk_score
        = 95 ∧
    (check_reputation [⟨"+1 (555) 123-4567", some "Known scammer"⟩] "999").risk_score = 10 := by
  constructor
  · exact ((check_reputation_total [⟨"+1 (555) 123-4567", some "Known scammer"⟩]
      "15551234567" ⟨0, [], ""⟩).2.2.1
      ⟨⟨"+1 (555) 123-4567", some "Known scammer"⟩, by decide, by decide⟩).1
  · exact ((check_reputation_total [⟨"+1 (555) 123-4567", some "Known scammer"⟩]
      "999" ⟨0, [], ""⟩).2.2.2.2.1
      (by rintro ⟨e, he, hk⟩; simp at he; rw [he] at hk; revert hk; decide)
      (by rintro ⟨hlen, _⟩; revert hlen; decide)).1

/-- Result dict of `add_scam_to_database` (report_scam.py).  The code
returns different key sets per branch; absent keys are `none`. -/
structure DBResult where
  success : Bool
  reason : Option String
  message : Option String
  error : Option String
  phone_number : Option String
  note : Option String
  database_size : Option Nat
deriving Repr, DecidableEq

/-- Note construction of report_scam.py lines 64–76 (`", ".join` of the
first three indicators, risk formatted with `:.0f`, stamped with the
current date). -/
def scam_note (risk_score : ℚ) (analysis : Analysis) (today : String) : String :=
  let base :=
    if analysis.scam_indicators ≠ [] then
      "Detected scam (Risk: " ++ fmt0 risk_score ++ "%). Indicators: "
        ++ String.intercalate ", " (analysis.scam_indicators.take 3) ++ "."
    else
      "Detected scam (Risk: " ++ fmt0 risk_score ++ "%). " ++ analysis.reason
  base ++ " [Auto-detected: " ++ today ++ "]"

/-- `add_scam_to_database` (report_scam.py lines 17–114) on the parsed
database list (the content of `scam_numbers.json`); the I/O-free core: the
loaded list is the input and the saved list is the second component.  The
`decision` argument of the source is accepted and, as in the source body,
unused. -/
def add_scam_to_database (db : List ScamEntry) (phone_number : String) (risk_score : ℚ)
    (analysis : Analysis) (decision : Decision) (today : String) :
    DBResult × List ScamEntry :=
  let normalized := normalize_number phone_number
  if db.any (fun e => normalize_number e.number == normalized) then
    ({ success := false
       reason := some "already_exists"
       message := some ("Number " ++ phone_number ++ " already in database")
       error := none, phone_number := none, note := none, database_size := none }, db)
  else
    let note := scam_note risk_score analysis today
    let new_db := db ++ [⟨phone_number, some note⟩]
    ({ success := true
       reason := none
       message := some ("Successfully added " ++ phone_number ++ " to scam database")
       error := none
       phone_number := some phone_number
       note := some note
       database_size := some new_db.length }, new_db)

/-- Iterated calls of `add_scam_to_database` with the same number. -/
def iterate_add (phone_number : String) (risk_score : ℚ) (analysis : Analysis)
    (decision : Decision) (today : String) : Nat → List ScamEntry → List ScamEntry
  | 0, db => db
  | k + 1, db =>
      iterate_add phone_number risk_score analysis decision today k
        (add_scam_to_database db phone_number risk_score analysis decision today).2

/-- One call on a database already holding the number is a no-op. -/
theorem add_scam_already (db : List ScamEntry) (x : String) (risk : ℚ) (a : Analysis)
    (d : Decision) (today : String)
    (h : db.any (fun e => normalize_number e.number == normalize_number x) = true) :
    (add_scam_to_database db x risk a d today).1.success = false ∧
    (add_scam_to_database db x risk a d today).1.reason = some "already_exists" ∧
    (add_scam_to_database db x risk a d today).2 = db := by
  simp [add_scam_to_database, h]

/-- After a fresh insertion the inserted number matches itself. -/
theorem add_scam_fresh (db : List ScamEntry) (x : String) (risk : ℚ) (a : Analysis)
    (d : Decision) (today : String)
    (h : ¬ db.any (fun e => normalize_number e.number == normalize_number x) = true) :
    (add_scam_to_database db x risk a d today).2
      = db ++ [⟨x, some (scam_note risk a today)⟩] := by
  simp only [add_scam_to_database]
  rw [if_neg h]

/-- A database already holding the number is a fixed point of the iterated
insertion. -/
theorem iterate_add_stable (db : List ScamEntry) (x : String) (risk : ℚ) (a : Analysis)
    (d : Decision) (today : String) (k : Nat)
    (hb : db.any (fun e => normalize_number e.number == normalize_number x) = true) :
    iterate_add x risk a d today k db = db := by
  induction k with
  | zero => rfl
  | succ k ih =>
      rw [iterate_add, (add_scam_already db x risk a d today hb).2.2, ih]

/-- Claim C10: `add_scam_to_database` never duplicates an entry: when the
normalized digits of the number already match an existing entry it returns
`success = false` with reason "already_exists" and leaves the database
unchanged, and any number of calls with the same number grows any database
by at most one entry. -/
theorem add_scam_at_most_one (db : List ScamEntry) (x : String) (risk : ℚ) (a : Analysis)
    (d : Decision) (today : String)
    (hmem : ∃ e ∈ db, normalize_number e.number = normalize_number x) :
    (add_scam_to_database db x risk a d today).1.success = false ∧
    (add_scam_to_database db x risk a d today).1.reason = some "already_exists" ∧
    (add_scam_to_database db x risk a d today).2 = db ∧
    ∀ db' k, (iterate_add x risk a d today k db').length ≤ db'.length + 1 := by
  have hb : db.any (fun e => normalize_number e.number == normalize_number x) = true := by
    obtain ⟨e, he, hk⟩ := hmem
    exact List.any_eq_true.mpr ⟨e, he, by simpa using hk⟩
  obtain ⟨h1, h2, h3⟩ := add_scam_already db x risk a d today hb
  refine ⟨h1, h2, h3, ?_⟩
  intro db' k
  by_cases hb' : db'.any (fun e => normalize_number e.number == normalize_number x) = true
  · rw [iterate_add_stable db' x risk a d today k hb']
    omega
  · cases k with
    | zero => simp [iterate_add]
    | succ k =>
        rw [iterate_add, add_scam_fresh db' x risk a d today hb',
          iterate_add_stable _ x risk a d today k
            (by simp [List.any_append, normalize_number])]
        simp

/-- Witness for `add_scam_at_most_one`: reinserting a number already in the
database (under different formatting) is refused and leaves it unchanged. -/
theorem add_scam_at_most_one_witness :
    (add_scam_to_database [⟨"+1 (555) 123-4567", none⟩] "15551234567" 90 ⟨90, [], ""⟩
      ⟨"warn", "", 90⟩ "2026-10-12").1.reason = some "already_exists" := by
  exact (add_scam_at_most_one [⟨"+1 (555) 123-4567", none⟩] "15551234567" 90 ⟨90, [], ""⟩
    ⟨"warn", "", 90⟩ "2026-10-12"
    ⟨⟨"+1 (555) 123-4567", none⟩, by decide, by decide⟩).2.1

/-- An `activity` log entry appended by `_log` (only the parts the
scam-processing claims observe: the stage and the skip marker). -/
structure LogEntry where
  stage : String
  msg : Option String
deriving Repr, DecidableEq

/-- The slice of `GuardianState` read and written by
`GuardianAgent.n_process_scam`. -/
structure ScamProcState where
  scam_processed : Bool
  caller_number : Option String
  scam_report_result : Option DBResult
  activity : List LogEntry
deriving Repr, DecidableEq

/-- Externally observable events of one `n_process_scam` run, in program
order. -/
inductive ScamEvent where
  | markProcessed
  | invokeDB (result : DBResult)
  | logged (entry : LogEntry)
deriving Repr, DecidableEq

/-- Recognizer for the side-effect collaborator invocation. -/
def ScamEvent.isInvokeDB : ScamEvent → Bool
  | ScamEvent.invokeDB _ => true
  | _ => false

/-- `GuardianAgent.n_process_scam` (agent.py lines 274–319), entered only
when `decision.action == "warn"` (graph wiring, agent.py lines 436–454).
`dbResult` is the value returned by the `add_scam_to_database`
collaborator for this run (failures included).  The event list records,
in program order, the guard flip (line 298), the collaborator invocation
(line 301) and the `_log` call; the guard flip precedes the invocation. -/
def n_process_scam (dbResult : DBResult) (s : ScamProcState) :
    ScamProcState × List ScamEvent :=
  if s.scam_processed then
    let entry : LogEntry := ⟨"process_scam", some "Scam already processed, skipping."⟩
    ({ s with activity := s.activity ++ [entry] }, [ScamEvent.logged entry])
  else
    let s1 := { s with scam_processed := true }
    let entry : LogEntry :=
      ⟨"process_scam", some (dbResult.message.getD "Scam processing completed")⟩
    ({ s1 with
        scam_report_result := some dbResult
        activity := s1.activity ++ [entry] },
      [ScamEvent.markProcessed, ScamEvent.invokeDB dbResult, ScamEvent.logged entry])

/-- Consecutive warn-branch pipeline runs: run `k` gets collaborator
result `g k`; the accumulated event trace is the second component. -/
def run_process_scam (g : Nat → DBResult) : Nat → ScamProcState →
    ScamProcState × List ScamEvent
  | 0, s => (s, [])
  | k + 1, s =>
      let r := n_process_scam (g 0) s
      let rest := run_process_scam (fun i => g (i + 1)) k r.1
      (rest.1, r.2 ++ rest.2)

/-- Unfolding of one warn run followed by the remaining runs. -/
theorem run_process_scam_succ (g : Nat → DBResult) (k : Nat) (s : ScamProcState) :
    run_process_scam g (k + 1) s
      = ((run_process_scam (fun i => g (i + 1)) k (n_process_scam (g 0) s).1).1,
         (n_process_scam (g 0) s).2
           ++ (run_process_scam (fun i => g (i + 1)) k (n_process_scam (g 0) s).1).2) := rfl

/-- A processed call stays processed and every further warn run only logs
the skip entry. -/
theorem run_process_scam_processed (g : Nat → DBResult) (n : Nat) (s : ScamProcState)
    (h : s.scam_processed = true) :
    (run_process_scam g n s).1.scam_processed = true ∧
    (run_process_scam g n s).2
      = List.replicate n
          (ScamEvent.logged ⟨"process_scam", some "Scam already processed, skipping."⟩) := by
  induction n generalizing g s with
  | zero => exact ⟨h, rfl⟩
  | succ n ih =>
      have hstep : n_process_scam (g 0) s
          = ({ s with activity := s.activity
                ++ [⟨"process_scam", some "Scam already processed, skipping."⟩] },
             [ScamEvent.logged ⟨"process_scam", some "Scam already processed, skipping."⟩]) := by
        simp [n_process_scam, h]
      obtain ⟨ih1, ih2⟩ := ih (fun i => g (i + 1)) (n_process_scam (g 0) s).1
        (by rw [hstep]; exact h)
      refine ⟨?_, ?_⟩
      · rw [run_process_scam_succ]
        exact ih1
      · rw [run_process_scam_succ]
        show (n_process_scam (g 0) s).2 ++ _ = _
        rw [ih2, hstep]
        simp [List.replicate_succ]

/-- Claim C2: across any number of consecutive warn runs the scam-database
collaborator is invoked at most once: starting unprocessed, the first run
flips `scam_processed` strictly before the invocation (event order), the
flag never returns to false whatever the collaborator reports, and every
later run performs no side effect and only logs the skip entry. -/
theorem scam_processed_at_most_once (g : Nat → DBResult) (n : Nat) (s : ScamProcState)
    (h : s.scam_processed = false) :
    ((run_process_scam g n s).2.countP (·.isInvokeDB) = min n 1) ∧
    (1 ≤ n → (run_process_scam g n s).2
      = ScamEvent.markProcessed :: ScamEvent.invokeDB (g 0)
          :: ScamEvent.logged ⟨"process_scam", some (((g 0).message).getD "Scam processing completed")⟩
          :: List.replicate (n - 1)
              (ScamEvent.logged ⟨"process_scam", some "Scam already processed, skipping."⟩)) ∧
    (1 ≤ n → (run_process_scam g n s).1.scam_processed = true) := by
  cases n with
  | zero => simp [run_process_scam]
  | succ n =>
      have hstep : (n_process_scam (g 0) s).2
          = [ScamEvent.markProcessed, ScamEvent.invokeDB (g 0),
             ScamEvent.logged ⟨"process_scam",
               some (((g 0).message).getD "Scam processing completed")⟩] := by
        simp [n_process_scam, h]
      have hstate : (n_process_scam (g 0) s).1.scam_processed = true := by
        simp [n_process_scam, h]
      obtain ⟨hrest1, hrest2⟩ :=
        run_process_scam_processed (fun i => g (i + 1)) n (n_process_scam (g 0) s).1 hstate
      refine ⟨?_, ?_, ?_⟩
      · rw [run_process_scam_succ]
        simp only [hstep, hrest2]
        simp [List.countP_append, List.countP_replicate, ScamEvent.isInvokeDB]
      · intro _
        rw [run_process_scam_succ]
        simp only [hstep, hrest2]
        simp
      · intro _
        rw [run_process_scam_succ]
        exact hrest1

/-- Witness for `scam_processed_at_most_once`: three consecutive warn runs
from a fresh call invoke the collaborator exactly once, even though the
collaborator reports failure. -/
theorem scam_processed_at_most_once_witness :
    ((run_process_scam
        (fun _ => { success := false, reason := none, message := none, error := some "boom",
                    phone_number := none, note := none, database_size := none })
        3 ⟨false, some "+155599999999", none, []⟩).2.countP (·.isInvokeDB) = 1) := by
  have h := scam_processed_at_most_once
    (fun _ => { success := false, reason := none, message := none, error := some "boom",
                phone_number := none, note := none, database_size := none })
    3 ⟨false, some "+155599999999", none, []⟩ rfl
  simpa using h.1

/-- A transcript entry appended by `n_update_transcript`:
`{ "speaker": ..., "text": ... }`. -/
structure TranscriptEntry where
  speaker : String
  text : String
deriving Repr, DecidableEq

/-- `GuardianAgent.n_update_transcript` (agent.py lines 162–194): append
the incoming chunk (if non-empty) and set `should_analyze_now` from the
elapsed time since the last analysis.  `interval` is
`ANALYZE_INTERVAL_SECONDS` (default 30, agent.py line 97); `last_chunk`
and `speaker` keep Python's falsy-or defaults of lines 169–170.  The gate
takes no trigger-kind input: a periodic-driver invocation (sim_agent.py
line 95 / telephony_agent.py line 72, `text=""`) runs exactly this code. -/
def n_update_transcript (transcript : List TranscriptEntry)
    (last_chunk : Option String) (speaker : Option String)
    (now last_analysis_ts interval : ℚ) : List TranscriptEntry × Bool :=
  let chunk := match last_chunk with
    | some s => s
    | none => ""
  let spk := match speaker with
    | some s => if s = "" then "caller" else s
    | none => "caller"
  let transcript' :=
    if chunk ≠ "" then transcript ++ [⟨spk, chunk⟩] else transcript
  (transcript', decide (now - last_analysis_ts ≥ interval))

/-- Counterexample to claim C3: a forced trigger is not "always due" — a
periodic-driver run (empty chunk, speaker "system") arriving 10 seconds
after the last analysis, with the default 30-second interval, is gated
off exactly like an incremental one. -/
theorem cadence_forced_counterexample :
    (n_update_transcript [] (some "") (some "system") 10 0 30).2 = false ∧
    ¬ ((10 : ℚ) - 0 ≥ 30) := by
  constructor
  · norm_num [n_update_transcript]
  · norm_num

/-- Claim C3 (amended): the cadence gate ignores the trigger kind —
`should_analyze_now` is true exactly when `now - last_analysis_ts ≥ I`,
for the periodic driver's forced runs and incremental fragment runs
alike; hence two incremental triggers 5 seconds apart (the first one due)
yield exactly one analysis, and a forced trigger in between analyzes only
if the interval has elapsed. -/
theorem cadence_gate (transcript : List TranscriptEntry) (chunk spk : Option String)
    (now ts interval : ℚ) :
    ((n_update_transcript transcript chunk spk now ts interval).2 = true
      ↔ interval ≤ now - ts) ∧
    (∀ (t1 : List TranscriptEntry) (c1 s1 : Option String),
      (n_update_transcript t1 c1 s1 now ts interval).2
        = (n_update_transcript transcript chunk spk now ts interval).2) ∧
    (interval = 30 → interval ≤ now - ts →
      (n_update_transcript transcript chunk spk now ts interval).2 = true ∧
      (n_update_transcript transcript chunk spk (now + 5) now interval).2 = false) := by
  refine ⟨by simp [n_update_transcript, ge_iff_le], fun t1 c1 s1 => rfl, ?_⟩
  rintro rfl hdue
  constructor
  · simp only [n_update_transcript, decide_eq_true_eq, ge_iff_le]
    exact hdue
  · simp only [n_update_transcript, decide_eq_false_iff_not, ge_iff_le, not_le]
    linarith

/-- Witness for `cadence_gate`: a run 100 seconds after the last analysis
is due, and the follow-up run 5 seconds later is not. -/
theorem cadence_gate_witness :
    (n_update_transcript [] (some "hi") (some "caller") 100 0 30).2 = true ∧
    (n_update_transcript [] (some "hi") (some "caller") 105 100 30).2 = false := by
  have h := (cadence_gate [] (some "hi") (some "caller") 100 0 30).2.2 rfl (by norm_num)
  exact ⟨h.1, by rw [show (105 : ℚ) = 100 + 5 by norm_num]; exact h.2⟩

/-- Counterexample to claim C5: ingesting the same fragment twice appends
two identical transcript entries — there is no duplicate check. -/
theorem transcript_dedup_counterexample :
    (n_update_transcript
        ((n_update_transcript [] (some "hello") (some "caller") 0 0 30).1)
        (some "hello") (some "caller") 1 0 30).1
      = [⟨"caller", "hello"⟩, ⟨"caller", "hello"⟩] := by
  simp [n_update_transcript]

/-- Claim C5 (amended): transcript ingestion is not idempotent — every run
with a non-empty chunk appends one entry unconditionally, so re-ingesting
the identical fragment appends a second copy and grows the transcript
again; only an empty chunk leaves it unchanged. -/
theorem transcript_append_no_dedup (transcript : List TranscriptEntry)
    (chunk : String) (spk : Option String) (now ts now2 ts2 interval : ℚ)
    (h : chunk ≠ "") :
    (∃ e : TranscriptEntry, e.text = chunk ∧
      (n_update_transcript transcript (some chunk) spk now ts interval).1
        = transcript ++ [e] ∧
      (n_update_transcript
          ((n_update_transcript transcript (some chunk) spk now ts interval).1)
          (some chunk) spk now2 ts2 interval).1
        = transcript ++ [e, e]) ∧
    (n_update_transcript transcript (some "") spk now ts interval).1 = transcript ∧
    (n_update_transcript transcript none spk now ts interval).1 = transcript := by
  refine ⟨⟨⟨match spk with
    | some s => if s = "" then "caller" else s
    | none => "caller", chunk⟩, rfl, ?_, ?_⟩, by simp [n_update_transcript],
      by simp [n_update_transcript]⟩
  · simp [n_update_transcript, h]
  · simp [n_update_transcript, h]

/-- Witness for `transcript_append_no_dedup`: the fragment "hello" is
appended twice when ingested twice. -/
theorem transcript_append_no_dedup_witness :
    ∃ e : TranscriptEntry, e.text = "hello" ∧
      (n_update_transcript
          ((n_update_transcript [] (some "hello") (some "caller") 0 0 30).1)
          (some "hello") (some "caller") 1 0 30).1 = [] ++ [e, e] := by
  obtain ⟨⟨e, he, _, hdup⟩, -, -⟩ :=
    transcript_append_no_dedup [] "hello" (some "caller") 0 0 1 0 30 (by decide)
  exact ⟨e, he, hdup⟩

/-- A raw transcript dict as fed to `identify_speakers`: any of the keys
may be missing, and `speaker`/`role` may carry any vocabulary. -/
structure RawEntry where
  speaker : Option String
  role : Option String
  text : Option String
  interrupted : Option Bool
  timestamp : Option String
deriving Repr, DecidableEq

/-- A normalized transcript entry (check_speaker.py lines 52–59). -/
structure NormEntry where
  speaker : String
  text : String
  interrupted : Bool
  timestamp : String
deriving Repr, DecidableEq

/-- `entry.get("speaker") or entry.get("role", "unknown")`
(check_speaker.py line 46): Python's falsy `or` falls through on a
missing or empty `speaker`. -/
def entry_speaker (e : RawEntry) : String :=
  match e.speaker with
  | some s => if s = "" then e.role.getD "unknown" else s
  | none => e.role.getD "unknown"

/-- First normalization pass of `identify_speakers` (lines 43–59):
`role` → `speaker`, `assistant` → `agent`, defaults for the rest. -/
def normalize_entry (e : RawEntry) : NormEntry :=
  let speaker := entry_speaker e
  { speaker := if speaker = "assistant" then "agent" else speaker
    text := e.text.getD ""
    interrupted := e.interrupted.getD false
    timestamp := e.timestamp.getD "" }

/-- The batch of indices sent to the classifier (lines 61–67): exactly the
entries currently labeled "user". -/
def needs_identification (l : List NormEntry) : List Nat :=
  (List.range l.length).filter (fun i => decide ((l.get? i).map (·.speaker) = some "user"))

/-- In-place speaker relabeling `updated[idx] = {**updated[idx],
"speaker": label.lower()}`; indices originate from `enumerate` and are
in range. -/
def set_speaker (l : List NormEntry) (i : Nat) (s : String) : List NormEntry :=
  match l.get? i with
  | some e => l.set i { e with speaker := s }
  | none => l

/-- Python's `str.lower()` on the ASCII classifier labels. -/
def str_lower (s : String) : String := ⟨s.data.map Char.toLower⟩

/-- The `for idx, label in zip(needs_identification, labels)` loop (lines
83–89): a label is applied only when its lowercase form is in
`{"user", "pottential_scammer"}`; anything else leaves the entry as is. -/
def apply_labels (l : List NormEntry) : List (Nat × String) → List NormEntry
  | [] => l
  | (idx, label) :: rest =>
      let l' :=
        if str_lower label = "user" ∨ str_lower label = "pottential_scammer" then
          set_speaker l idx (str_lower label)
        else l
      apply_labels l' rest

/-- `identify_speakers` (check_speaker.py lines 25–96).  The LLM call
(`_identify_speakers_with_llm`) is the `classify` collaborator; an
exception anywhere in it (lines 93–96) returns the normalized transcript
unchanged.  A non-list/non-string result is covered by the error case /
the lowercase-membership check. -/
def identify_speakers (classify : List NormEntry → List Nat → Except Unit (List String))
    (transcript : List RawEntry) : List NormEntry :=
  if transcript = [] then []
  else
    let normalized := transcript.map normalize_entry
    let needs := needs_identification normalized
    if needs = [] then normalized
    else
      match classify normalized needs with
      | Except.error _ => normalized
      | Except.ok labels => apply_labels normalized (needs.zip labels)

/-- `set_speaker` keeps the length. -/
theorem set_speaker_length (l : List NormEntry) (i : Nat) (s : String) :
    (set_speaker l i s).length = l.length := by
  unfold set_speaker
  cases l.get? i <;> simp

/-- `set_speaker` does not touch other indices. -/
theorem set_speaker_get_ne (l : List NormEntry) (i j : Nat) (s : String) (h : i ≠ j) :
    (set_speaker l i s).get? j = l.get? j := by
  unfold set_speaker
  cases l.get? i <;> simp [List.getElem?_set_ne h]

/-- `set_speaker` rewrites exactly the speaker field at its index. -/
theorem set_speaker_get_eq (l : List NormEntry) (i : Nat) (s : String) (e : NormEntry)
    (h : l.get? i = some e) :
    (set_speaker l i s).get? i = some { e with speaker := s } := by
  unfold set_speaker
  rw [h]
  have hlt : i < l.length := by
    by_contra hge
    rw [List.get?_eq_none.mpr (le_of_not_lt hge)] at h
    cases h
  exact List.get?_set_eq_of_lt _ hlt

/-- A `get?` hit bounds the index. -/
theorem get_some_lt {α : Type} (l : List α) (i : Nat) (a : α) (h : l.get? i = some a) :
    i < l.length := by
  by_contra hge
  rw [List.get?_eq_none.mpr (le_of_not_lt hge)] at h
  cases h

/-- `apply_labels` keeps the length. -/
theorem apply_labels_length (ps : List (Nat × String)) :
    ∀ l : List NormEntry, (apply_labels l ps).length = l.length := by
  induction ps with
  | nil => intro l; rfl
  | cons p rest ih =>
      intro l
      obtain ⟨idx, label⟩ := p
      show (apply_labels
        (if str_lower label = "user" ∨ str_lower label = "pottential_scammer" then
          set_speaker l idx (str_lower label) else l) rest).length = l.length
      rw [ih]
      split_ifs with hv
      · exact set_speaker_length l idx (str_lower label)
      · rfl

/-- Indices without a pair in the label list are untouched. -/
theorem apply_labels_get_no_pair (ps : List (Nat × String)) :
    ∀ (l : List NormEntry) (i : Nat),
      (∀ lb : String, ((i, lb) : Nat × String) ∉ ps) →
      (apply_labels l ps).get? i = l.get? i := by
  induction ps with
  | nil => intro l i _; rfl
  | cons p rest ih =>
      intro l i hni
      obtain ⟨idx, label⟩ := p
      have hii : idx ≠ i := by
        intro he
        exact hni label (by rw [he]; exact List.mem_cons_self _ _)
      show (apply_labels
        (if str_lower label = "user" ∨ str_lower label = "pottential_scammer" then
          set_speaker l idx (str_lower label) else l) rest).get? i = l.get? i
      rw [ih _ _ (fun lb hm => hni lb (List.mem_cons_of_mem _ hm))]
      split_ifs with hv
      · exact set_speaker_get_ne l idx i (str_lower label) hii
      · rfl

/-- `apply_labels` can change only the speaker field, and only to one of
the two allowed classifier labels. -/
theorem apply_labels_fields (ps : List (Nat × String)) :
    ∀ (l : List NormEntry) (i : Nat) (e' : NormEntry),
      (apply_labels l ps).get? i = some e' →
      ∃ e, l.get? i = some e ∧ e'.text = e.text ∧ e'.interrupted = e.interrupted ∧
        e'.timestamp = e.timestamp ∧
        (e'.speaker = e.speaker ∨ e'.speaker = "user" ∨ e'.speaker = "pottential_scammer") := by
  induction ps with
  | nil => intro l i e' h; exact ⟨e', h, rfl, rfl, rfl, Or.inl rfl⟩
  | cons p rest ih =>
      intro l i e' h
      obtain ⟨idx, label⟩ := p
      have h' : (apply_labels
          (if str_lower label = "user" ∨ str_lower label = "pottential_scammer" then
            set_speaker l idx (str_lower label) else l) rest).get? i = some e' := h
      obtain ⟨em, hm, ht, hin, hts, hsp⟩ := ih _ i e' h'
      by_cases hv : str_lower label = "user" ∨ str_lower label = "pottential_scammer"
      · rw [if_pos hv] at hm
        by_cases hij : idx = i
        · subst hij
          cases he0 : l.get? idx with
          | none =>
              exfalso
              have hcontra : l.get? idx = some em := by
                unfold set_speaker at hm
                rw [he0] at hm
                exact hm
              rw [he0] at hcontra
              cases hcontra
          | some e0 =>
              rw [set_speaker_get_eq l idx (str_lower label) e0 he0] at hm
              have hem : em = { e0 with speaker := str_lower label } :=
                ((Option.some.injEq _ _).mp hm).symm
              refine ⟨e0, rfl, by rw [ht, hem], by rw [hin, hem], by rw [hts, hem], ?_⟩
              rcases hsp with hs | hs | hs
              · rw [hs, hem]
                rcases hv with hv | hv
                · exact Or.inr (Or.inl hv)
                · exact Or.inr (Or.inr hv)
              · exact Or.inr (Or.inl hs)
              · exact Or.inr (Or.inr hs)
        · rw [set_speaker_get_ne l idx i (str_lower label) hij] at hm
          exact ⟨em, hm, ht, hin, hts, hsp⟩
      · rw [if_neg hv] at hm
        exact ⟨em, hm, ht, hin, hts, hsp⟩

/-- Membership in the classifier batch means exactly: the entry is
currently labeled "user". -/
theorem needs_identification_mem (l : List NormEntry) (i : Nat) :
    i ∈ needs_identification l ↔ ∃ e, l.get? i = some e ∧ e.speaker = "user" := by
  unfold needs_identification
  rw [List.mem_filter, List.mem_range]
  constructor
  · rintro ⟨hlt, hp⟩
    cases he : l.get? i with
    | none => rw [he] at hp; simp at hp
    | some e =>
        rw [he] at hp
        exact ⟨e, rfl, by simpa using hp⟩
  · rintro ⟨e, he, hs⟩
    refine ⟨get_some_lt l i e he, ?_⟩
    simp only [decide_eq_true_eq]
    rw [he, Option.map_some', hs]

/-- Claim C6 (amended): speaker resolution preserves order, count and all
non-speaker fields; the classifier batch contains exactly the entries
still labeled "user"; entries labeled anything else ("pottential_scammer",
"agent", ...) are never resent or changed; but entries labeled "user" —
the protected-person label — are resent on every run and may be
relabeled, so monotonicity holds only for the non-"user" labels. -/
theorem speaker_resolution (classify : List NormEntry → List Nat → Except Unit (List String))
    (transcript : List RawEntry) :
    (identify_speakers classify transcript).length = transcript.length ∧
    (∀ i, i ∈ needs_identification (transcript.map normalize_entry)
        ↔ ∃ e, (transcript.map normalize_entry).get? i = some e ∧ e.speaker = "user") ∧
    (∀ i e, (transcript.map normalize_entry).get? i = some e → e.speaker ≠ "user" →
      (identify_speakers classify transcript).get? i = some e) ∧
    (∀ i e e', (transcript.map normalize_entry).get? i = some e →
      (identify_speakers classify transcript).get? i = some e' →
      e'.text = e.text ∧ e'.interrupted = e.interrupted ∧ e'.timestamp = e.timestamp ∧
      (e'.speaker = e.speaker ∨ e'.speaker = "user" ∨ e'.speaker = "pottential_scammer")) := by
  have hout : identify_speakers classify transcript = transcript.map normalize_entry ∨
      (∃ labels,
        classify (transcript.map normalize_entry)
          (needs_identification (transcript.map normalize_entry)) = Except.ok labels ∧
        identify_speakers classify transcript
          = apply_labels (transcript.map normalize_entry)
              ((needs_identification (transcript.map normalize_entry)).zip labels)) := by
    by_cases h1 : transcript = []
    · subst h1
      left
      simp [identify_speakers]
    · by_cases h2 : needs_identification (transcript.map normalize_entry) = []
      · left
        simp [identify_speakers, h1, h2]
      · cases hc : classify (transcript.map normalize_entry)
            (needs_identification (transcript.map normalize_entry)) with
        | error e => left; simp [identify_speakers, h1, h2, hc]
        | ok labels => right; exact ⟨labels, rfl, by simp [identify_speakers, h1, h2, hc]⟩
  refine ⟨?_, fun i => needs_identification_mem _ i, ?_, ?_⟩
  · rcases hout with h | ⟨labels, _, h⟩ <;> rw [h]
    · exact List.length_map _ _
    · rw [apply_labels_length, List.length_map]
  · intro i e he hne
    rcases hout with h | ⟨labels, _, h⟩
    · rw [h]; exact he
    · rw [h]
      rw [apply_labels_get_no_pair _ _ _ ?_]
      · exact he
      · intro lb hmem
        have hi : i ∈ needs_identification (transcript.map normalize_entry) :=
          (List.of_mem_zip hmem).1
        obtain ⟨e2, he2, hs2⟩ := (needs_identification_mem _ i).mp hi
        rw [he] at he2
        exact hne (by rw [← hs2, (Option.some.injEq _ _).mp he2])
  · intro i e e' he he'
    rcases hout with h | ⟨labels, _, h⟩
    · rw [h] at he'
      rw [he] at he'
      have : e = e' := (Option.some.injEq _ _).mp he'
      subst this
      exact ⟨rfl, rfl, rfl, Or.inl rfl⟩
    · rw [h] at he'
      obtain ⟨em, hm, ht, hin, hts, hsp⟩ := apply_labels_fields _ _ i e' he'
      rw [he] at hm
      have : em = e := (Option.some.injEq _ _).mp hm.symm
      subst this
      exact ⟨ht, hin, hts, hsp⟩

/-- Counterexample to claim C6 as stated: an entry already carrying the
resolved label "user" (the protected person) is nevertheless included in
the classifier batch on the next run, and a classifier answer of
"pottential_scammer" changes its label. -/
theorem speaker_monotonic_counterexample :
    needs_identification ([⟨some "user", none, some "hi", none, none⟩].map normalize_entry)
      = [0] ∧
    (identify_speakers (fun _ _ => Except.ok ["pottential_scammer"])
        [⟨some "user", none, some "hi", none, none⟩]).map (·.speaker)
      = ["pottential_scammer"] := by
  constructor
  · rfl
  · decide

/-- Witness for `speaker_resolution`: an entry already labeled
"pottential_scammer" survives a further run untouched even when the
classifier would answer "user". -/
theorem speaker_resolution_witness :
    (identify_speakers (fun _ _ => Except.ok ["user"])
        [⟨some "pottential_scammer", none, some "send money", none, none⟩]).get? 0
      = some ⟨"pottential_scammer", "send money", false, ""⟩ := by
  exact (speaker_resolution (fun _ _ => Except.ok ["user"])
      [⟨some "pottential_scammer", none, some "send money", none, none⟩]).2.2.1 0
    ⟨"pottential_scammer", "send money", false, ""⟩ rfl (by decide)

/-- Membership of a pattern in a character list at any position. -/
def has_infix_aux (needle : List Char) : List Char → Bool
  | [] => needle.isEmpty
  | c :: t => needle.isPrefixOf (c :: t) || has_infix_aux needle t

/-- Python's `needle in hay` substring test. -/
def py_in (needle hay : String) : Bool := has_infix_aux needle.data hay.data

/-- `_fallback_guardian_message` (agent_script.py lines 192–230): the
deterministic template keyed on the risk band, the first-intervention
flag and the indicator text.  The leading underscore of the source name
is dropped. -/
def fallback_guardian_message (analysis : Analysis) (is_first : Bool) : String :=
  let risk := analysis.risk_score
  let indicators := analysis.scam_indicators
  if is_first then
    if risk ≥ 80 then
      "Wait - can you give me your employee ID number and a direct callback number I can verify?"
    else if risk ≥ 50 then
      "Hold on - which department are you calling from? I want to verify this."
    else
      "Can you explain why you need that specific information?"
  else
    if risk ≥ 80 then
      if indicators ≠ [] ∧ py_in "password" (str_lower (indicators.headD "")) then
        "Why would you need my password? I\x27ve never been asked that before."
      else
        "What\x27s the routing number for that account? And your supervisor\x27s name?"
    else if risk ≥ 50 then
      "Why can\x27t I handle this through the official website or app? Give me a case reference number."
    else if risk ≥ 30 then
      "Can I get that request in writing first? What\x27s your official email address?"
    else
      "Let me verify this - what\x27s your department and callback number?"

/-- Quote stripping of agent_script.py lines 178–182. -/
def strip_wrapping (message : String) : String :=
  let m1 :=
    if message.startsWith "\"" && message.endsWith "\"" then
      (message.drop 1).dropRight 1
    else message
  if m1.startsWith "\x27" && m1.endsWith "\x27" then
    (m1.drop 1).dropRight 1
  else m1

/-- Collaborator outcomes for one `generate_guardian_message` call:
whether `_get_openai_client()` succeeds (it raises on a missing
`OPENAI_API_KEY` or a failed client construction), and the outcome of the
model call. -/
structure GenEnv where
  client_ok : Bool
  model_result : Except Unit String
deriving Repr

/-- `generate_guardian_message` (agent_script.py lines 29–189).  The
`except Exception` handler (lines 186–189) calls
`_fallback_guardian_message(analysis, is_first_intervention)`, but
`is_first_intervention` is assigned at line 56, after the
`_get_openai_client()` call of line 47: when the client raises, the
handler itself raises `UnboundLocalError`, which propagates to the
caller (the `Except.error` case).  Only a failure of the model call
(after line 56) reaches the fallback. -/
def generate_guardian_message (env : GenEnv) (transcript : List TranscriptEntry)
    (analysis : Analysis) : Except String String :=
  if env.client_ok = false then
    Except.error
      "UnboundLocalError: local variable \x27is_first_intervention\x27 referenced before assignment"
  else
    let has_spoken_before := transcript.any (fun e => e.speaker == "guardian")
    let is_first_intervention := ! has_spoken_before
    match env.model_result with
    | Except.ok content => Except.ok (strip_wrapping content.trim)
    | Except.error _ => Except.ok (fallback_guardian_message analysis is_first_intervention)

/-- Claim C7 (code bug): `generate_guardian_message` is supposed never to
propagate a collaborator failure, and a failed model call indeed falls
back to the risk-band template; but when the client itself cannot be
produced (missing API key / failed construction) the `except` handler
references the not-yet-assigned `is_first_intervention` and raises
`UnboundLocalError`, so the call raises instead of returning a
template. -/
theorem generate_message_fallback_bug :
    (∀ (r : Except Unit String) (t : List TranscriptEntry) (a : Analysis),
      generate_guardian_message ⟨false, r⟩ t a
        = Except.error
            "UnboundLocalError: local variable \x27is_first_intervention\x27 referenced before assignment") ∧
    (∀ (t : List TranscriptEntry) (a : Analysis),
      generate_guardian_message ⟨true, Except.error ()⟩ t a
        = Except.ok (fallback_guardian_message a
            (! t.any (fun e => e.speaker == "guardian")))) ∧
    generate_guardian_message ⟨true, Except.error ()⟩ [] ⟨90, [], ""⟩
      = Except.ok
          "Wait - can you give me your employee ID number and a direct callback number I can verify?" ∧
    generate_guardian_message ⟨false, Except.error ()⟩ [] ⟨90, [], ""⟩
      = Except.error
          "UnboundLocalError: local variable \x27is_first_intervention\x27 referenced before assignment" := by
  refine ⟨fun r t a => rfl, fun t a => rfl, ?_, rfl⟩
  have h2 : generate_guardian_message ⟨true, Except.error ()⟩ ([] : List TranscriptEntry)
        ⟨90, [], ""⟩
      = Except.ok (fallback_guardian_message ⟨90, [], ""⟩
          (! ([] : List TranscriptEntry).any (fun e => e.speaker == "guardian"))) := rfl
  rw [h2]
  norm_num [fallback_guardian_message]

/-- The published snapshot path `_STATE_FILE` of shared_state.py. -/
def state_file : String := "shared_state.json"

/-- File-system operations a writer can perform; `replaceFile` is the
atomic rename (`os.replace`) available to implementations, included so
the atomic-publish pattern is expressible. -/
inductive FileOp where
  | openTrunc (path : String)
  | writeChunk (path : String) (data : String)
  | replaceFile (src : String) (dst : String)
deriving Repr, DecidableEq

/-- `save_shared_state` (shared_state.py lines 48–54) as its operation
trace: `_STATE_FILE.open("w")` truncates the published snapshot in place
and `json.dump` then streams the serialization into the same path.  No
temporary file and no rename occurs. -/
def save_shared_state_ops (stateJson : String) : List FileOp :=
  [FileOp.openTrunc state_file, FileOp.writeChunk state_file stateJson]

/-- Effect of one operation on the file-system contents map. -/
def applyOp (fs : String → String) : FileOp → (String → String)
  | FileOp.openTrunc p => fun q => if q = p then "" else fs q
  | FileOp.writeChunk p d => fun q => if q = p then fs q ++ d else fs q
  | FileOp.replaceFile src dst => fun q => if q = dst then fs src else fs q

/-- Contents of `path` a concurrent reader can observe: before, between
and after the writer's operations. -/
def observations (fs : String → String) (path : String) : List FileOp → List String
  | [] => [fs path]
  | op :: ops => fs path :: observations (applyOp fs op) path ops

/-- Recognizes operations compatible with the claimed temp-write-then-
atomic-replace discipline at the published path: never opening or
writing the published path directly. -/
def avoids_published (published : String) : FileOp → Bool
  | FileOp.openTrunc p => p != published
  | FileOp.writeChunk p _ => p != published
  | FileOp.replaceFile _ _ => true

/-- Counterexample to claim C8: `save_shared_state` truncates and writes
the published snapshot path directly — there is no temporary file and no
atomic replace — so a concurrent reader of the published path can observe
the truncated empty intermediate state, which is neither the old nor the
new snapshot. -/
theorem snapshot_atomic_counterexample :
    observations (fun _ => "oldsnapshot") state_file (save_shared_state_ops "newsnapshot")
      = ["oldsnapshot", "", "newsnapshot"] ∧
    ("" = "oldsnapshot" ∨ "" = "newsnapshot") = False ∧
    (save_shared_state_ops "newsnapshot").all (avoids_published state_file) = false ∧
    (save_shared_state_ops "newsnapshot").all (fun op =>
      match op with
      | FileOp.replaceFile _ _ => false
      | _ => true) = true := by
  refine ⟨?_, ?_, rfl, rfl⟩
  · simp [observations, applyOp, save_shared_state_ops, state_file]
  · simp

/-- Claim C8 (amended): every snapshot export writes the serialized state
directly into the published path — truncate, then write, with no
temporary file and no rename — so the reader-visible contents pass
through the empty string between the old and the new snapshot. -/
theorem save_shared_state_direct_write (fs : String → String) (stateJson : String) :
    observations fs state_file (save_shared_state_ops stateJson)
      = [fs state_file, "", stateJson] ∧
    (save_shared_state_ops stateJson).all (fun op =>
      match op with
      | FileOp.openTrunc p => p == state_file
      | FileOp.writeChunk p _ => p == state_file
      | FileOp.replaceFile _ _ => false) = true := by
  refine ⟨?_, rfl⟩
  simp [observations, applyOp, save_shared_state_ops, state_file]

end Guardian
